import Mathlib

set_option maxRecDepth 8192

/-!
Shallow embedding of the AI-powered-MathSolver repository.

The repository under verification has two executable source files:
an Express route handler (`src/file/route.js`, the `router.post("/")`
handler) and a Gemini wrapper (`src/unnamed/part_001`, exporting
`analyzeImage` and the local helper `fileToGenerativePart`).

External collaborators of that code (the Joi schema `ImageDataSchema`
from the missing `schema.js`, the `sharp` image library, the Gemini
SDK call `model.generateContent`, and the JavaScript builtin
`JSON.parse`) are modelled as an environment of oracle functions; the
branching logic of the two source files themselves is translated
directly.  Calls to the two external services (`sharp`, Gemini) are
additionally recorded in a trace so that claims of the form "the
backend is never invoked" and "the MIME type sent to the backend" are
directly statable.

The mathematical core described by the specification (expression
validation, label substitution, the solving pipeline and the
geometric formula registry) lives in files that are not part of
`src/` (`math_solver.py`, `formulas.py`, `schema.js`); those parts
are modelled from the specification text, and each such definition is
marked `Modelled from the spec:` in its doc comment.
-/

/-- Node `Buffer` values are identified with the (base64) text they
carry; no claim inspects buffer bytes. -/
abbrev Buffer := String

/-- Raw HTTP request body, opaque to the handler until the Joi schema
has validated it. -/
abbrev Body := String

/-- String constant: the `status` value of the 200 response in
`route.js` (`status: "success"`). -/
def successTag : String := "success"

/-- String constant: the `status` value of the 500 response in
`route.js` (`status: "failure"`). -/
def failureTag : String := "failure"

/-- String constant: the hard-coded MIME type in `analyzeImage`
(`const mimeType = "image/jpeg"`). -/
def jpegMime : String := "image/jpeg"

/-- String constant: `message` of the 400 response in `route.js`. -/
def validationFailedMsg : String := "Validation failed"

/-- String constant: `message` of the 200 response in `route.js`. -/
def processedMsg : String := "Image processed successfully"

/-- String constant: `message` of the 500 response in `route.js`. -/
def internalErrorMsg : String := "Internal server error"

/-- Message of the `TypeError` thrown by
`image.match(/^data:(.+);base64/)[1]` when the regular expression does
not match (`match` returns `null` and the index dereference throws). -/
def nullDerefMsg : String := "Cannot read properties of null"

/-- Message of the `TypeError` thrown by `Buffer.from(undefined,
"base64")` when `image.split(",")[1]` is `undefined`. -/
def bufferUndefMsg : String := "argument must not be undefined"

/-- A thrown JavaScript error, reduced to its `message` (the only
field the handler reads, in `error.message`). -/
structure JsError where
  message : String
deriving DecidableEq, Repr

/-- A parsed JSON value, the possible results of `JSON.parse` on the
cleaned Gemini response text. -/
inductive JsVal where
  | null
  | jbool (b : Bool)
  | jnum (n : Int)
  | jstr (s : String)
  | jarr (elems : List JsVal)
  | jobj (fields : List (String × JsVal))

/-- Inline-data part built by `fileToGenerativePart` in
`src/unnamed/part_001`: the buffer rendered as base64 together with a
MIME type. -/
structure GenPart where
  data : String
  mimeType : String
deriving DecidableEq, Repr

/-- Translation of `fileToGenerativePart(imageBuffer, mimeType)`:
wraps the buffer (re-encoded as base64, here the identity since a
buffer is identified with its base64 text) and the given MIME type. -/
def fileToGenerativePart (imageBuffer : Buffer) (mimeType : String) : GenPart :=
  { data := imageBuffer, mimeType := mimeType }

/-- Record of one call to an external service, used to state claims
about which backends a request reaches and with which arguments. -/
inductive ExtCall where
  | sharp (input : Buffer)
  | gemini (promptText : String) (part : GenPart)
deriving DecidableEq, Repr

/-- The validated request value destructured by the handler:
`const { image, dict_of_vars } = value`.  The schema file is not part
of `src/`, so `dict_of_vars` stays opaque (the handler and
`analyzeImage` only ever pass it through / `JSON.stringify` it). -/
structure ImageValue where
  image : String
  dictOfVars : String

/-- Result of `ImageDataSchema.validate(req.body)`: Joi returns an
object `{ error, value }`; the handler only distinguishes `error`
present (with its `details`) from absent (with the validated value). -/
inductive JoiResult where
  | invalid (details : String)
  | valid (v : ImageValue)

/-- Environment of external capabilities consumed by the route
handler and by `analyzeImage`: the Joi schema, `sharp().resize()`,
`model.generateContent` and `JSON.parse`.  Fallible calls return
`Except JsError`; `JSON.parse` either yields a value or fails. -/
structure Env where
  schemaValidate : Body → JoiResult
  sharpResize : Buffer → Except JsError Buffer
  generateContent : String → GenPart → Except JsError String
  jsonParse : String → Option JsVal

/-- Shape of the JSON responses produced by the route handler.  Fields
absent from a given response are `none` (the 400 response carries no
`status` or `data` field, the 200 response no `error` field, and so
on), mirroring the three object literals in `route.js`. -/
structure JsonResponse where
  statusCode : Nat
  message : String
  status : Option String
  data : Option JsVal
  error : Option String
  errors : Option String

/-- The 400 response of `route.js`:
`res.status(400).json({ message: "Validation failed", errors: error.details })`. -/
def validationFailedResponse (details : String) : JsonResponse :=
  { statusCode := 400, message := validationFailedMsg, status := none,
    data := none, error := none, errors := some details }

/-- The 200 response of `route.js`:
`res.status(200).json({ message, data: responses, status: "success" })`. -/
def successResponse (responses : JsVal) : JsonResponse :=
  { statusCode := 200, message := processedMsg, status := some successTag,
    data := some responses, error := none, errors := none }

/-- The 500 response of `route.js`:
`res.status(500).json({ message, status: "failure", error: error.message })`. -/
def internalErrorResponse (errMessage : String) : JsonResponse :=
  { statusCode := 500, message := internalErrorMsg, status := some failureTag,
    data := none, error := some errMessage, errors := none }

/-- Splitting of a character list at commas, the semantics of the
JavaScript `image.split(",")` (empty segments are kept). -/
def splitOnComma : List Char → List (List Char)
  | [] => [[]]
  | c :: rest =>
    let r := splitOnComma rest
    if c = ',' then [] :: r
    else
      match r with
      | [] => [[c]]
      | h :: t => (c :: h) :: t

/-- Translation of `image.split(",")[1]`: the second comma-separated
segment, or `none` when the string contains no comma (JavaScript
`undefined`). -/
def splitSecond (s : String) : Option String :=
  ((splitOnComma s.data).map (fun l => String.mk l))[1]?

/-- Character list of the literal `data:` that the regular expression
`^data:(.+);base64` anchors on. -/
def dataColon : List Char := ['d', 'a', 't', 'a', ':']

/-- Character list of the literal `;base64` that must follow the
captured group in `^data:(.+);base64`. -/
def b64Marker : List Char := [';', 'b', 'a', 's', 'e', '6', '4']

/-- Whether the pattern `pat` occurs in `l` starting at index `i`. -/
def occursAt (pat l : List Char) (i : Nat) : Bool :=
  pat.isPrefixOf (l.drop i)

/-- Whether a character can be matched by `.` in a JavaScript regular
expression (everything except line terminators). -/
def dotMatches (c : Char) : Bool :=
  c ≠ '\n' && c ≠ '\r'

/-- Length of the greedy match of `(.+)` in `^data:(.+);base64`
against `rest` (the text after `data:`): the largest positive `i`
such that `;base64` occurs at `i` and the first `i` characters
contain no line terminator. -/
def bestIdx (rest : List Char) : Option Nat :=
  (List.range (rest.length + 1)).reverse.find?
    (fun i => decide (1 ≤ i) && occursAt b64Marker rest i && (rest.take i).all dotMatches)

/-- Translation of `image.match(/^data:(.+);base64/)` followed by the
`[1]` capture: `some` the captured MIME-type text when the pattern
matches, `none` when `match` returns `null`. -/
def dataUrlCapture (s : String) : Option String :=
  let l := s.data
  if dataColon.isPrefixOf l then
    match bestIdx (l.drop 5) with
    | some i => some (String.mk ((l.drop 5).take i))
    | none => none
  else none

/-- Translation of `Buffer.from(base64Data, "base64")`: throws a
`TypeError` when `base64Data` is `undefined` (no comma in the image
string), otherwise yields the decoded buffer (identified with its
base64 text). -/
def bufferFromBase64 : Option String → Except JsError Buffer
  | none => .error ⟨bufferUndefMsg⟩
  | some s => .ok s

/-- Opening fixed text of the prompt template in `analyzeImage`
(the long instruction text is abbreviated: no claim depends on its
wording, only on the fact that `dict_of_vars_str` is interpolated
into it). -/
def promptHead : String := "You have been given an image with some mathematical expressions, equations, or graphical problems, and you need to solve them. Here is a dictionary of user-assigned variables: "

/-- Closing fixed text of the prompt template in `analyzeImage`. -/
def promptTail : String := " DO NOT USE BACKTICKS OR MARKDOWN FORMATTING."

/-- The prompt string built by `analyzeImage` around
`dict_of_vars_str = JSON.stringify(dictOfVars)` (the stringified
dictionary is the opaque `dictOfVars` payload itself). -/
def promptFor (dictOfVarsStr : String) : String :=
  promptHead ++ dictOfVarsStr ++ promptTail

/-- String constant used by the response cleaning code. -/
def tickJsonTok : String := "```json"

/-- String constant used by the response cleaning code. -/
def tickTok : String := "```"

/-- String constant: a single quote character. -/
def squoteTok : String := "\x27"

/-- String constant: a double quote character. -/
def dquoteTok : String := "\""

/-- String constant used by the response cleaning code. -/
def pyTrueTok : String := "True"

/-- String constant used by the response cleaning code. -/
def jsTrueTok : String := "true"

/-- String constant used by the response cleaning code. -/
def pyFalseTok : String := "False"

/-- String constant used by the response cleaning code. -/
def jsFalseTok : String := "false"

/-- String constant: the empty string. -/
def emptyTok : String := ""

/-- Translation of the response-cleaning chain in `analyzeImage`:
removes Markdown code fences, replaces single quotes by double quotes
and Python booleans by JavaScript booleans. -/
def cleanResponse (s : String) : String :=
  ((((s.replace tickJsonTok emptyTok).replace tickTok emptyTok).replace
    squoteTok dquoteTok).replace pyTrueTok jsTrueTok).replace pyFalseTok jsFalseTok

/-- Translation of `analyzeImage(imageBuffer, dictOfVars)` from
`src/unnamed/part_001`, paired with the trace of external calls it
makes.  The MIME type is hard-coded to `"image/jpeg"`; a thrown
Gemini error is rethrown (`throw error` in the catch block); a
`JSON.parse` failure is swallowed: `answers` keeps its initial value
`[]` and is returned, so the caller cannot distinguish it from a
successful empty answer list. -/
def analyzeImage (env : Env) (imageBuffer : Buffer) (dictOfVars : String) :
    Except JsError JsVal × List ExtCall :=
  let imagePart := fileToGenerativePart imageBuffer jpegMime
  match env.generateContent (promptFor dictOfVars) imagePart with
  | .error e => (.error e, [ExtCall.gemini (promptFor dictOfVars) imagePart])
  | .ok responseText =>
    match env.jsonParse (cleanResponse responseText) with
    | some answers => (.ok answers, [ExtCall.gemini (promptFor dictOfVars) imagePart])
    | none => (.ok (JsVal.jarr []), [ExtCall.gemini (promptFor dictOfVars) imagePart])

/-- Translation of the body of the `try` block of the
`router.post("/")` handler in `route.js`, paired with the trace of
external calls: schema validation, destructuring, `split`/`match`
extraction, `Buffer.from`, the `sharp(...).resize(...).toBuffer()`
call, the `analyzeImage` call, and the 200 response.  An `.error`
result is an exception propagating to the handler's `catch`.  In the
source, `image.split(",")[1]` is computed one line before the
`match`-dereference; that call is pure and cannot throw, so it is
inlined at its use site (`Buffer.from`). -/
def routeTry (env : Env) (body : Body) : Except JsError JsonResponse × List ExtCall :=
  match env.schemaValidate body with
  | .invalid details => (.ok (validationFailedResponse details), [])
  | .valid v =>
    match dataUrlCapture v.image with
    | none => (.error ⟨nullDerefMsg⟩, [])
    | some _mimeType =>
      match bufferFromBase64 (splitSecond v.image) with
      | .error e => (.error e, [])
      | .ok imageBuffer =>
        match env.sharpResize imageBuffer with
        | .error e => (.error e, [ExtCall.sharp imageBuffer])
        | .ok processedImage =>
          match analyzeImage env processedImage v.dictOfVars with
          | (.error e, calls) => (.error e, ExtCall.sharp imageBuffer :: calls)
          | (.ok responses, calls) =>
            (.ok (successResponse responses), ExtCall.sharp imageBuffer :: calls)

/-- Translation of the whole `router.post("/")` handler: the `try`
block wrapped by the `catch (error)` clause, which maps any thrown
error to the 500 response carrying `error.message`. -/
def handler (env : Env) (body : Body) : JsonResponse × List ExtCall :=
  match routeTry env body with
  | (.ok r, calls) => (r, calls)
  | (.error e, calls) => (internalErrorResponse e.message, calls)

/-!
Spec-modelled core.

The mathematical core described by the specification — the Text
Normalizer, Question Preprocessor, Label Substitution Engine,
Expression Validator, Solving Orchestrator and Geometric Formula
Registry — lives in `math_solver.py` / `formulas.py` / `schema.js`,
which are not part of `src/` (only their README and their HTTP
callers are).  The definitions below are therefore modelled from the
specification text, faithful to its words, and are marked as such.
-/

/-- Modelled from the spec: the error kinds of §7 used by the solving
pipeline (the geometric registry has its own kinds below).  The
specification's check 1 of §4.4 ("non-empty after trimming") names no
kind, so `EmptyExpression` stands for it. -/
inductive ErrorKind where
  | EmptyExpression
  | InvalidCharacter
  | UnbalancedParentheses
  | MalformedOperatorSequence
  | EmptyGroup
  | ConflictingLabel
  | UnresolvedVariable
  | SolveBackendError
  | BackendUnavailable
deriving DecidableEq, Repr

/-- Modelled from the spec: the character whitelist of §3
(NormalizedExpression): digits, `+ - * / ^ ( ) . = ,`, letters and
whitespace. -/
def allowedChar (c : Char) : Bool :=
  c.isDigit || c.isAlpha ||
    c ∈ ['+', '-', '*', '/', '^', '(', ')', '.', '=', ','] || c.isWhitespace

/-- Parenthesis contribution of one character to the running depth
counter of §4.4 check 3. -/
def parenDelta (c : Char) : Int :=
  if c = '(' then 1 else if c = ')' then -1 else 0

/-- Total parenthesis depth change over a character list. -/
def depthOf (l : List Char) : Int :=
  (l.map parenDelta).sum

/-- Modelled from the spec: the running-depth scan of §4.4 check 3;
`true` exactly when the counter never goes negative and returns to
zero at the end. -/
def balScan : List Char → Int → Bool
  | [], d => decide (d = 0)
  | c :: cs, d =>
    let d' := d + parenDelta c
    if d' < 0 then false else balScan cs d'

/-- Unbalanced parentheses as the claim states them: the running
depth counter goes negative at some point (on some prefix) or does
not return to zero at the end. -/
def Unbalanced (s : String) : Prop :=
  (∃ n, depthOf (s.data.take n) < 0) ∨ depthOf s.data ≠ 0

/-- Modelled from the spec: whether a character is one of the five
binary operator characters of §4.4 check 4. -/
def isOpChar (c : Char) : Bool :=
  c = '+' || c = '-' || c = '*' || c = '/' || c = '^'

/-- Modelled from the spec: §4.4 check 4 — no adjacent binary
operators (a `-` directly after another operator is a permitted unary
minus), no operator immediately before `)`, and no operator at the
end of the string. -/
def opSeqOk : List Char → Bool
  | [] => true
  | [c] => !isOpChar c
  | a :: b :: rest =>
    if isOpChar a then
      if b = ')' then false
      else if isOpChar b && b ≠ '-' then false
      else opSeqOk (b :: rest)
    else opSeqOk (b :: rest)

/-- Modelled from the spec: §4.4 check 5 — an empty parenthesis
group `()` occurs somewhere in the string. -/
def hasEmptyGroup : List Char → Bool
  | [] => false
  | [_] => false
  | a :: b :: rest => (a = '(' && b = ')') || hasEmptyGroup (b :: rest)

/-- Modelled from the spec: `validate(expr) -> Ok | Err(ErrorKind)`
(§4.4), five checks in order, first failure wins: non-empty after
trimming, character whitelist, parenthesis balance, operator
sequences, empty groups. -/
def validate (s : String) : Except ErrorKind Unit :=
  let l := s.data
  if l.all Char.isWhitespace then .error .EmptyExpression
  else if !(l.all allowedChar) then .error .InvalidCharacter
  else if !(balScan l 0) then .error .UnbalancedParentheses
  else if !(opSeqOk l) then .error .MalformedOperatorSequence
  else if hasEmptyGroup l then .error .EmptyGroup
  else .ok ()

/-- Modelled from the spec: the fixed OCR character-correction table
of §4.1, with the concrete corrections listed by the repository
README (`l`→`1`, `I`→`1`, `O`→`0`, `o`→`0`, `×`→`*`, `÷`→`/`,
`−`→`-`), applied as a single left-to-right scan. -/
def ocrCharFix (c : Char) : Char :=
  if c = 'l' then '1'
  else if c = 'I' then '1'
  else if c = 'O' then '0'
  else if c = 'o' then '0'
  else if c = '×' then '*'
  else if c = '÷' then '/'
  else if c = '−' then '-'
  else c

/-- Collapsing of redundant whitespace (§4.1): runs of whitespace
become a single space; the flag records whether the previous kept
character was whitespace (initially true, so leading whitespace is
dropped). -/
def collapseWsAux : List Char → Bool → List Char
  | [], _ => []
  | c :: rest, prevWs =>
    if c.isWhitespace then
      if prevWs then collapseWsAux rest true
      else ' ' :: collapseWsAux rest true
    else c :: collapseWsAux rest false

/-- Modelled from the spec: `normalize(rawText) -> NormalizedText`
(§4.1) — one left-to-right pass of the correction table, then
whitespace collapsing; a pure total function (empty input gives an
empty result, not a failure).  Named `normalizeText` because Mathlib
already declares a root-level `normalize`. -/
def normalizeText (s : String) : String :=
  String.mk (collapseWsAux (s.data.map ocrCharFix) true)

/-- Modelled from the spec: the fixed lead-in phrases of §4.2,
case-insensitive, recognized only at the start of the question. -/
def leadPhrases : List (List Char) :=
  [['w', 'h', 'a', 't', ' ', 'i', 's'],
   ['c', 'a', 'l', 'c', 'u', 'l', 'a', 't', 'e'],
   ['s', 'o', 'l', 'v', 'e'],
   ['f', 'i', 'n', 'd']]

/-- Case-insensitive phrase match at the start of a character list:
`some rest` when the phrase (given lower-case) is a prefix of the
input up to case, `none` otherwise. -/
def matchPhraseCI : List Char → List Char → Option (List Char)
  | [], rest => some rest
  | _ :: _, [] => none
  | p :: ps, c :: cs => if c.toLower = p then matchPhraseCI ps cs else none

/-- Trailing-punctuation characters stripped by §4.2. -/
def isTrailingPunct (c : Char) : Bool :=
  c = '?' || c = '.' || c = '!' || c.isWhitespace

/-- Modelled from the spec: `extractExpression(question)` (§4.2) —
strips one recognized lead-in phrase at the start (never mid-string)
and trailing punctuation; never judges validity itself. -/
def extractExpression (q : String) : String :=
  let l := q.data.dropWhile Char.isWhitespace
  let afterLead :=
    match leadPhrases.findSome? (fun ph => matchPhraseCI ph l) with
    | some rest => rest.dropWhile Char.isWhitespace
    | none => l
  String.mk ((afterLead.reverse.dropWhile isTrailingPunct).reverse)

/-- Modelled from the spec: an unnormalized fraction standing for the
numeric values of the symbolic backend (`Value(number)`), with
arithmetic that a proof checker can evaluate; fractions are not
reduced, so `2 + 3*4` computes to `Frac.mk 14 1`. -/
structure Frac where
  num : Int
  den : Int
deriving DecidableEq, Repr

/-- Embedding of an integer as a fraction. -/
def Frac.ofInt (n : Int) : Frac := ⟨n, 1⟩

/-- Fraction addition (no reduction). -/
def Frac.add (a b : Frac) : Frac := ⟨a.num * b.den + b.num * a.den, a.den * b.den⟩

/-- Fraction subtraction (no reduction). -/
def Frac.sub (a b : Frac) : Frac := ⟨a.num * b.den - b.num * a.den, a.den * b.den⟩

/-- Fraction multiplication (no reduction). -/
def Frac.mul (a b : Frac) : Frac := ⟨a.num * b.num, a.den * b.den⟩

/-- Fraction division (no reduction; a zero divisor yields a zero
denominator, which no claim exercises). -/
def Frac.div (a b : Frac) : Frac := ⟨a.num * b.den, a.den * b.num⟩

/-- Fraction negation. -/
def Frac.neg (a : Frac) : Frac := ⟨-a.num, a.den⟩

/-- Fraction exponentiation; the backend's `^` is modelled for
non-negative integer exponents (the only form the spec's examples
use), other exponents yield 0. -/
def Frac.pow (a b : Frac) : Frac :=
  if 0 ≤ b.num && b.den = 1 then ⟨a.num ^ b.num.toNat, a.den ^ b.num.toNat⟩
  else ⟨0, 1⟩

/-- Rendering of a fraction back into expression text, used when a
label value is substituted into the expression; integer values render
without the denominator. -/
def Frac.render (a : Frac) : List Char :=
  if a.den = 1 then (toString a.num).data
  else (toString a.num).data ++ '/' :: (toString a.den).data

/-- Modelled from the spec: a label, `{name, value}` (§3). -/
structure Label where
  name : String
  value : Frac
deriving DecidableEq, Repr

/-- Names of a label list, in request order. -/
def labelNames (labels : List Label) : List String :=
  labels.map Label.name

/-- Lookup of a label by name (first match). -/
def lookupLabel (labels : List Label) (n : String) : Option Frac :=
  (labels.find? (fun lb => lb.name = n)).map Label.value

/-- Whether a character may extend an identifier-like token for the
purpose of boundary-aware matching (§4.3): letters and digits. -/
def isWordChar (c : Char) : Bool :=
  c.isAlpha || c.isDigit

/-- Modelled from the spec: the scan of the Label Substitution Engine
(§4.3).  `prev` is the character just before the current position
(`none` at the start).  Maximal alphabetic runs are candidate tokens;
a token is replaced only when neither neighbour is a letter or digit
and a label with that name exists; replaced values are wrapped in
parentheses; unmatched tokens are left as free variables. -/
def subScan (labels : List Label) : Nat → Option Char → List Char → List Char
  | 0, _, l => l
  | _, _, [] => []
  | Nat.succ fuel, prev, c :: rest =>
    if c.isAlpha then
      let tok := List.takeWhile Char.isAlpha (c :: rest)
      let after := List.drop (tok.length - 1) rest
      let prevOk := match prev with
        | none => true
        | some p => !isWordChar p
      let nextOk := match after with
        | [] => true
        | d :: _ => !isWordChar d
      match (if prevOk && nextOk then lookupLabel labels (String.mk tok) else none) with
      | some v => '(' :: Frac.render v ++ ')' :: subScan labels fuel (some ')') after
      | none => tok ++ subScan labels fuel tok.getLast? after
    else c :: subScan labels fuel (some c) rest

/-- Modelled from the spec: `substitute(expr, labels)` (§4.3),
substituted expression component (the used-labels component is not
needed by any claim).  The scan consumes at least one character per
step, so fuel `s.length + 1` always suffices. -/
def substituteExpr (s : String) (labels : List Label) : String :=
  String.mk (subScan labels (s.data.length + 1) none s.data)

/-- Tokens of the symbolic backend's expression grammar. -/
inductive Tok where
  | tnum (v : Frac)
  | tplus
  | tminus
  | tstar
  | tslash
  | tcaret
  | tlpar
  | trpar
deriving DecidableEq, Repr

/-- Decimal digits to a natural number. -/
def digitsToNat (l : List Char) : Nat :=
  l.foldl (fun a c => a * 10 + (c.toNat - 48)) 0

/-- Operator and parenthesis characters to tokens. -/
def opTok (c : Char) : Option Tok :=
  if c = '+' then some Tok.tplus
  else if c = '-' then some Tok.tminus
  else if c = '*' then some Tok.tstar
  else if c = '/' then some Tok.tslash
  else if c = '^' then some Tok.tcaret
  else if c = '(' then some Tok.tlpar
  else if c = ')' then some Tok.trpar
  else none

/-- Fuel-driven tokenizer loop; every step consumes at least one
input character, so fuel `l.length + 1` always suffices (the `0`
case is unreachable from `tokenize` below). -/
def tokenizeAux : Nat → List Char → Option (List Tok)
  | 0, _ => none
  | Nat.succ _, [] => some []
  | Nat.succ fuel, c :: rest =>
    if c.isWhitespace then tokenizeAux fuel rest
    else if c.isDigit then
      let ds := List.takeWhile Char.isDigit (c :: rest)
      let after := List.drop (ds.length - 1) rest
      match after with
      | '.' :: r2 =>
        let fs := List.takeWhile Char.isDigit r2
        if fs.length = 0 then none
        else
          let afterF := List.drop fs.length r2
          (tokenizeAux fuel afterF).map
            (fun ts => Tok.tnum ⟨(digitsToNat ds) * 10 ^ fs.length + digitsToNat fs, (10 : Int) ^ fs.length⟩ :: ts)
      | _ =>
        (tokenizeAux fuel after).map (fun ts => Tok.tnum (Frac.ofInt (digitsToNat ds)) :: ts)
    else
      match opTok c with
      | some t => (tokenizeAux fuel rest).map (fun ts => t :: ts)
      | none => none

/-- Modelled from the spec: tokenizer of the backend's parse step —
numbers (with an optional decimal part), the five operators and
parentheses; whitespace is skipped; anything else is a parse error. -/
def tokenize (l : List Char) : Option (List Tok) :=
  tokenizeAux (l.length + 1) l

mutual

/-- Additive level of the backend's recursive-descent evaluator:
a term followed by a left-associative chain of `+` / `-`. -/
def parseE : Nat → List Tok → Option (Frac × List Tok)
  | 0, _ => none
  | Nat.succ fuel, ts =>
    match parseT fuel ts with
    | some (v, r) => parseELoop fuel v r
    | none => none

/-- Left-associative loop for `+` / `-`. -/
def parseELoop : Nat → Frac → List Tok → Option (Frac × List Tok)
  | 0, _, _ => none
  | Nat.succ fuel, v, ts =>
    match ts with
    | Tok.tplus :: r =>
      match parseT fuel r with
      | some (w, r2) => parseELoop fuel (Frac.add v w) r2
      | none => none
    | Tok.tminus :: r =>
      match parseT fuel r with
      | some (w, r2) => parseELoop fuel (Frac.sub v w) r2
      | none => none
    | _ => some (v, ts)

/-- Multiplicative level: a factor followed by a left-associative
chain of `*` / `/`. -/
def parseT : Nat → List Tok → Option (Frac × List Tok)
  | 0, _ => none
  | Nat.succ fuel, ts =>
    match parseF fuel ts with
    | some (v, r) => parseTLoop fuel v r
    | none => none

/-- Left-associative loop for `*` / `/`. -/
def parseTLoop : Nat → Frac → List Tok → Option (Frac × List Tok)
  | 0, _, _ => none
  | Nat.succ fuel, v, ts =>
    match ts with
    | Tok.tstar :: r =>
      match parseF fuel r with
      | some (w, r2) => parseTLoop fuel (Frac.mul v w) r2
      | none => none
    | Tok.tslash :: r =>
      match parseF fuel r with
      | some (w, r2) => parseTLoop fuel (Frac.div v w) r2
      | none => none
    | _ => some (v, ts)

/-- Exponentiation level (right-associative `^` above atoms). -/
def parseF : Nat → List Tok → Option (Frac × List Tok)
  | 0, _ => none
  | Nat.succ fuel, ts =>
    match parseAtom fuel ts with
    | some (v, Tok.tcaret :: r) =>
      match parseF fuel r with
      | some (w, r2) => some (Frac.pow v w, r2)
      | none => none
    | some (v, r) => some (v, r)
    | none => none

/-- Atoms: numbers, unary minus and parenthesized expressions. -/
def parseAtom : Nat → List Tok → Option (Frac × List Tok)
  | 0, _ => none
  | Nat.succ fuel, ts =>
    match ts with
    | Tok.tnum v :: r => some (v, r)
    | Tok.tminus :: r =>
      match parseAtom fuel r with
      | some (v, r2) => some (Frac.neg v, r2)
      | none => none
    | Tok.tlpar :: r =>
      match parseE fuel r with
      | some (v, Tok.trpar :: r2) => some (v, r2)
      | _ => none
    | _ => none

end

/-- Modelled from the spec: the symbolic backend's arithmetic
evaluation capability (§9: `evaluate(AST) -> number`) over a
validated expression — tokenize, parse with the usual precedence
(PEMDAS) and fold to a numeric value; `none` is a backend parse
failure. -/
def evalArith (s : String) : Option Frac :=
  match tokenize s.data with
  | some ts =>
    match parseE (2 * ts.length + 4) ts with
    | some (v, []) => some v
    | _ => none
  | none => none

/-- Modelled from the spec: `SolveResult` (§3) — a tagged variant:
a numeric value, solved assignments, or a typed failure. -/
inductive SolveResult where
  | value (v : Frac)
  | assignments (l : List (String × Frac))
  | failure (kind : ErrorKind) (message : String)
deriving DecidableEq, Repr

/-- Message attached to a `ConflictingLabel` failure. -/
def conflictingLabelMsg : String := "duplicate label name"

/-- Message attached to an `UnresolvedVariable` failure. -/
def unresolvedVariableMsg : String := "unresolved variable in evaluation"

/-- Message attached to a backend parse failure. -/
def backendParseMsg : String := "backend could not parse expression"

/-- Message attached to the equation branch, which dispatches to the
backend's equation solver; that capability is outside every claim and
is modelled as a backend-reported failure. -/
def equationBranchMsg : String := "equation solving not modelled"

/-- Message attached to a validation failure, from its kind. -/
def validationMsg (k : ErrorKind) : String :=
  match k with
  | .EmptyExpression => "expression is empty"
  | .InvalidCharacter => "expression contains an invalid character"
  | .UnbalancedParentheses => "expression has unbalanced parentheses"
  | .MalformedOperatorSequence => "expression has a malformed operator sequence"
  | .EmptyGroup => "expression has an empty parenthesis group"
  | _ => "validation failure"

/-- Modelled from the spec: the input of the solving pipeline (§6) —
`{ question?, expression?, labels }`. -/
structure SolveInput where
  question : Option String
  expression : Option String
  labels : List Label

/-- Modelled from the spec: `solve(RawInput) -> SolveResult` (§4.5),
sequential stages: candidate selection (`expression` takes precedence
over `question`, §6), text normalization (§4.1), the duplicate-label
check (§3/§4.3: a request-level validation error detected before
substitution runs), label substitution (§4.3), validation (§4.4,
failure returns immediately), classification (§4.5 step 6: presence
of `=`), and dispatch (§4.5 steps 7 and 8: remaining variables in the
evaluation branch are `UnresolvedVariable`; the backend's numeric
evaluation result becomes `Value`). -/
def solve (inp : SolveInput) : SolveResult :=
  let candidate :=
    match inp.expression with
    | some e => e
    | none =>
      match inp.question with
      | some q => extractExpression q
      | none => emptyTok
  let normalized := normalizeText candidate
  if (labelNames inp.labels).Nodup then
    let substituted := substituteExpr normalized inp.labels
    match validate substituted with
    | .error k => .failure k (validationMsg k)
    | .ok _ =>
      if substituted.data.contains '=' then
        .failure .SolveBackendError equationBranchMsg
      else if substituted.data.any Char.isAlpha then
        .failure .UnresolvedVariable unresolvedVariableMsg
      else
        match evalArith substituted with
        | some v => .value v
        | none => .failure .SolveBackendError backendParseMsg
  else .failure .ConflictingLabel conflictingLabelMsg

/-- Modelled from the spec: the calculation kinds of the geometric
registry (§6): area, perimeter, volume, surface area. -/
inductive CalcType where
  | area
  | perimeter
  | volume
  | surfaceArea
deriving DecidableEq, Repr

/-- Modelled from the spec: the error kinds of the Geometric Formula
Registry (§4.6/§7): unknown shape, unsupported calculation, missing
parameter, and invalid (non-positive) parameter. -/
inductive GeoError where
  | UnknownShape
  | UnsupportedCalculation
  | MissingParameter (name : String)
  | InvalidParameter (name reason : String)
deriving DecidableEq, Repr

/-- Modelled from the spec: `ShapeSpec` (§3) — shape name, required
parameter names and the calculation kinds applicable to the shape. -/
structure ShapeSpec where
  name : String
  requiredParams : List String
  calcTypes : List CalcType
deriving DecidableEq, Repr

/-- Shape name constant. -/
def rectangleName : String := "Rectangle"

/-- Shape name constant. -/
def squareName : String := "Square"

/-- Shape name constant. -/
def circleName : String := "Circle"

/-- Shape name constant. -/
def triangleName : String := "Triangle"

/-- Shape name constant. -/
def parallelogramName : String := "Parallelogram"

/-- Shape name constant. -/
def ellipseName : String := "Ellipse"

/-- Shape name constant. -/
def cylinderName : String := "Cylinder"

/-- Shape name constant. -/
def sphereName : String := "Sphere"

/-- Shape name constant. -/
def coneName : String := "Cone"

/-- Parameter name constant (length). -/
def lParam : String := "l"

/-- Parameter name constant (width). -/
def wParam : String := "w"

/-- Parameter name constant (side). -/
def sParam : String := "s"

/-- Parameter name constant (radius). -/
def rParam : String := "r"

/-- Parameter name constant (base). -/
def bParam : String := "b"

/-- Parameter name constant (height). -/
def hParam : String := "h"

/-- Parameter name constant (semi-axis). -/
def aParam : String := "a"

/-- Modelled from the spec: the static, read-only shape catalog
(§3/§4.6), populated from the shapes and calculations the README
lists, restricted for each shape to the calculations its required
parameters determine (the spec's `ShapeSpec` carries one parameter
set per shape). -/
def catalog : List ShapeSpec :=
  [⟨rectangleName, [lParam, wParam], [CalcType.area, CalcType.perimeter]⟩,
   ⟨squareName, [sParam], [CalcType.area, CalcType.perimeter]⟩,
   ⟨circleName, [rParam], [CalcType.area, CalcType.perimeter, CalcType.volume, CalcType.surfaceArea]⟩,
   ⟨triangleName, [bParam, hParam], [CalcType.area]⟩,
   ⟨parallelogramName, [bParam, hParam], [CalcType.area]⟩,
   ⟨ellipseName, [aParam, bParam], [CalcType.area]⟩,
   ⟨cylinderName, [rParam, hParam], [CalcType.volume, CalcType.surfaceArea]⟩,
   ⟨sphereName, [rParam], [CalcType.volume, CalcType.surfaceArea]⟩,
   ⟨coneName, [rParam, hParam], [CalcType.volume]⟩]

/-- Modelled from the spec: `listShapes()` (§4.6) — the catalog in
its stable definition order. -/
def listShapes : List ShapeSpec := catalog

/-- Modelled from the spec: `CalcRequest` (§3) — shape name,
calculation kind, and a name-to-number parameter mapping. -/
structure CalcRequest where
  shape : String
  calcType : CalcType
  params : List (String × Rat)

/-- Parameter lookup in a request's parameter mapping. -/
def lookupParam (ps : List (String × Rat)) (n : String) : Option Rat :=
  (ps.find? (fun p => p.1 = n)).map Prod.snd

/-- Parameter lookup with default 0, used only inside formula
bodies, which validation guarantees are reached with every required
parameter present. -/
def getParam (ps : List (String × Rat)) (n : String) : Rat :=
  (lookupParam ps n).getD 0

/-- Rational stand-in for π inside the closed-form formulas (the
source computes with floating point, which is not modelled; no claim
evaluates a formula). -/
def piRat : Rat := 314159265 / 100000000

/-- A table assigning each (shape, calculation) pair its closed-form
formula over the request parameters. -/
abbrev FormulaTable := String → CalcType → List (String × Rat) → Rat

/-- Modelled from the spec: the closed-form formula table of §4.6
(pure lookup of `(shapeName, calcType) -> function(params) ->
number`); pairs outside the catalog return 0 and are unreachable
through `calculate`. -/
def defaultFormulas : FormulaTable := fun shape ct ps =>
  if shape = rectangleName then
    match ct with
    | CalcType.area => getParam ps lParam * getParam ps wParam
    | CalcType.perimeter => 2 * (getParam ps lParam + getParam ps wParam)
    | _ => 0
  else if shape = squareName then
    match ct with
    | CalcType.area => getParam ps sParam * getParam ps sParam
    | CalcType.perimeter => 4 * getParam ps sParam
    | _ => 0
  else if shape = circleName then
    match ct with
    | CalcType.area => piRat * getParam ps rParam * getParam ps rParam
    | CalcType.perimeter => 2 * piRat * getParam ps rParam
    | CalcType.volume => (4 / 3) * piRat * getParam ps rParam ^ 3
    | CalcType.surfaceArea => 4 * piRat * getParam ps rParam ^ 2
  else if shape = triangleName then
    match ct with
    | CalcType.area => getParam ps bParam * getParam ps hParam / 2
    | _ => 0
  else if shape = parallelogramName then
    match ct with
    | CalcType.area => getParam ps bParam * getParam ps hParam
    | _ => 0
  else if shape = ellipseName then
    match ct with
    | CalcType.area => piRat * getParam ps aParam * getParam ps bParam
    | _ => 0
  else if shape = cylinderName then
    match ct with
    | CalcType.volume => piRat * getParam ps rParam ^ 2 * getParam ps hParam
    | CalcType.surfaceArea => 2 * piRat * getParam ps rParam * (getParam ps rParam + getParam ps hParam)
    | _ => 0
  else if shape = sphereName then
    match ct with
    | CalcType.volume => (4 / 3) * piRat * getParam ps rParam ^ 3
    | CalcType.surfaceArea => 4 * piRat * getParam ps rParam ^ 2
    | _ => 0
  else if shape = coneName then
    match ct with
    | CalcType.volume => piRat * getParam ps rParam ^ 2 * getParam ps hParam / 3
    | _ => 0
  else 0

/-- Reason text attached to `InvalidParameter` failures. -/
def positiveReason : String := "must be strictly positive"

/-- Modelled from the spec: `calculate(CalcRequest) -> CalcResult`
(§4.6), parameterized by the formula table so that "no formula
executes" on the failure paths is directly statable (the result on
those paths is the same for every table).  Validation before
dispatch, in the spec's order: shape in catalog, calculation kind
supported, every required parameter present, required parameters
strictly positive; only then is the formula applied. -/
def calcWith (F : FormulaTable) (req : CalcRequest) : Except GeoError Rat :=
  match catalog.find? (fun sp => sp.name = req.shape) with
  | none => .error .UnknownShape
  | some sp =>
    if req.calcType ∈ sp.calcTypes then
      match sp.requiredParams.find? (fun n => (lookupParam req.params n).isNone) with
      | some n => .error (.MissingParameter n)
      | none =>
        match sp.requiredParams.find?
            (fun n => match lookupParam req.params n with
              | some v => decide (v ≤ 0)
              | none => false) with
        | some n => .error (.InvalidParameter n positiveReason)
        | none => .ok (F req.shape req.calcType req.params)
    else .error .UnsupportedCalculation

/-- The registry's `calculate`, dispatching to the default formula
table. -/
def calculate (req : CalcRequest) : Except GeoError Rat :=
  calcWith defaultFormulas req

/-- Discriminator: whether a calculation result is an
`InvalidParameter` failure (with any payload). -/
def isInvalidParameter (r : Except GeoError Rat) : Bool :=
  match r with
  | .error (.InvalidParameter _ _) => true
  | _ => false

/-- A fixed opaque request body used by the concrete runs. -/
def rawBody : Body := "raw-request-body"

/-- A well-formed data-URL image string (declared MIME type
`image/png`, one comma, base64 payload `AAAA`). -/
def goodImage : String := "data:image/png;base64,AAAA"

/-- An opaque `dict_of_vars` payload for the concrete runs. -/
def sampleDict : String := "x equals 4"

/-- A validated value with a well-formed data-URL image. -/
def goodValue : ImageValue := { image := goodImage, dictOfVars := sampleDict }

/-- An image string that contains a comma but does not match
`^data:(.+);base64`. -/
def badImage : String := "plain,AAAA"

/-- A validated value whose image string fails the data-URL pattern. -/
def badValue : ImageValue := { image := badImage, dictOfVars := sampleDict }

/-- Joi error details used by the schema-rejecting environment. -/
def joiDetails : String := "image is required"

/-- A Gemini response text that `JSON.parse` cannot parse. -/
def geminiText : String := "here is some prose, not JSON"

/-- Message of the error thrown by the failing `sharp` environment. -/
def sharpErrMsg : String := "sharp resize failed"

/-- Environment in which the schema accepts, `sharp` and Gemini
succeed, and `JSON.parse` fails on every text (the Gemini response
cannot be normalized into a result). -/
def envParseFail : Env :=
  { schemaValidate := fun _ => JoiResult.valid goodValue,
    sharpResize := fun b => Except.ok b,
    generateContent := fun _ _ => Except.ok geminiText,
    jsonParse := fun _ => none }

/-- Environment in which the schema rejects every body. -/
def envInvalid : Env :=
  { schemaValidate := fun _ => JoiResult.invalid joiDetails,
    sharpResize := fun b => Except.ok b,
    generateContent := fun _ _ => Except.ok geminiText,
    jsonParse := fun _ => none }

/-- Environment in which the schema accepts and `sharp` throws. -/
def envSharpThrow : Env :=
  { schemaValidate := fun _ => JoiResult.valid goodValue,
    sharpResize := fun _ => Except.error ⟨sharpErrMsg⟩,
    generateContent := fun _ _ => Except.ok geminiText,
    jsonParse := fun _ => none }

/-- Environment in which the schema accepts a value whose image
string fails the data-URL pattern. -/
def envBadImage : Env :=
  { schemaValidate := fun _ => JoiResult.valid badValue,
    sharpResize := fun b => Except.ok b,
    generateContent := fun _ _ => Except.ok geminiText,
    jsonParse := fun _ => none }

/-- The spec's arithmetic example expression. -/
def arithExpr : String := "2+3*4"

/-- Solving-pipeline input carrying the arithmetic example and no
labels. -/
def arithInput : SolveInput :=
  { question := none, expression := some arithExpr, labels := [] }

/-- A label named `a` with value 1. -/
def labelA1 : Label := { name := aParam, value := Frac.ofInt 1 }

/-- A second label also named `a`, with value 2. -/
def labelA2 : Label := { name := aParam, value := Frac.ofInt 2 }

/-- Solving-pipeline input with two labels sharing the name `a`. -/
def dupInput : SolveInput :=
  { question := none, expression := some arithExpr, labels := [labelA1, labelA2] }

/-- The spec's unbalanced-parenthesis example expression. -/
def unbalExpr : String := "(2+3"

/-- An expression that is unbalanced and also contains a character
outside the whitelist. -/
def invalidCharExpr : String := "(#"

/-- The spec's invalid-parameter example request: circle area with a
negative radius. -/
def circleNegReq : CalcRequest :=
  { shape := circleName, calcType := CalcType.area, params := [(rParam, -1)] }

/-- A request for a known shape (Rectangle) with a calculation kind
the shape does not support (surface area) and a non-positive length
parameter. -/
def rectSurfaceReq : CalcRequest :=
  { shape := rectangleName, calcType := CalcType.surfaceArea,
    params := [(lParam, -1), (wParam, 3)] }

/-- Base64 payload of `goodImage` (the text after its comma), which
is the buffer the concrete runs pass through `sharp` and Gemini. -/
def payloadB64 : String := "AAAA"

/-- The status tag the specification prescribes for success. -/
def okTag : String := "ok"

/-- The status tag the specification prescribes for failure. -/
def errorTag : String := "error"

/-- C2: for every request whose input fails structural validation
(`ImageDataSchema.validate` reports an error), the handler responds
with the 400 validation failure immediately and no external call is
made — the trace is empty, so neither image processing (`sharp`) nor
the generative backend (`analyzeImage` / Gemini) is ever invoked,
whatever the rest of the environment would do. -/
theorem c2_validation_fails_fast (env : Env) (body : Body) (details : String)
    (h : env.schemaValidate body = JoiResult.invalid details) :
    handler env body = (validationFailedResponse details, []) := by
  simp [handler, routeTry, h]

/-- Witness for C2 at a concrete environment whose schema rejects
the body. -/
theorem c2_validation_fails_fast_witness :
    envInvalid.schemaValidate rawBody = JoiResult.invalid joiDetails ∧
    handler envInvalid rawBody = (validationFailedResponse joiDetails, []) :=
  ⟨rfl, c2_validation_fails_fast envInvalid rawBody joiDetails rfl⟩

/-- C10: for every request body that passes schema validation but
whose image string does not match `^data:(.+);base64`, the
dereference `[1]` of the `null` match result throws, the thrown
`TypeError` is caught by the handler's catch clause, and the caller
receives the 500 internal-server-error failure response (status code
500, not a 400 validation error); no external service is called. -/
theorem c10_bad_data_url_500 (env : Env) (body : Body) (v : ImageValue)
    (hv : env.schemaValidate body = JoiResult.valid v)
    (hm : dataUrlCapture v.image = none) :
    handler env body = (internalErrorResponse nullDerefMsg, []) ∧
    (handler env body).1.statusCode = 500 ∧ (handler env body).1.statusCode ≠ 400 := by
  have h : handler env body = (internalErrorResponse nullDerefMsg, []) := by
    simp [handler, routeTry, hv, hm]
  refine ⟨h, ?_, ?_⟩ <;> simp [h, internalErrorResponse]

/-- Witness for C10 at a concrete environment that accepts a body
whose image string has no data-URL prefix. -/
theorem c10_bad_data_url_500_witness :
    envBadImage.schemaValidate rawBody = JoiResult.valid badValue ∧
    dataUrlCapture badValue.image = none ∧
    handler envBadImage rawBody = (internalErrorResponse nullDerefMsg, []) :=
  ⟨rfl, rfl, (c10_bad_data_url_500 envBadImage rawBody badValue rfl rfl).1⟩

/-- C5: solving the pure arithmetic expression `2+3*4` (no equals
sign, no free variables) through the full pipeline — normalization,
substitution with no labels, validation, classification as
arithmetic evaluation, backend evaluation with PEMDAS precedence —
returns the numeric value 14 as a `Value` result. -/
theorem c5_solve_arith_value14 : solve arithInput = SolveResult.value (Frac.ofInt 14) := rfl

/-- C6: for every request whose labels contain a duplicate name, the
pipeline fails with `ConflictingLabel` — a request-level validation
error produced before substitution runs (the result is this fixed
failure whatever the expression and whatever the labels' values, so
duplicate names are never silently merged or resolved last-wins). -/
theorem c6_duplicate_labels_rejected (inp : SolveInput)
    (h : ¬ (labelNames inp.labels).Nodup) :
    solve inp = SolveResult.failure ErrorKind.ConflictingLabel conflictingLabelMsg := by
  simp [solve, h]

/-- Witness for C6 at a concrete input with two labels named `a`
(values 1 and 2). -/
theorem c6_duplicate_labels_rejected_witness :
    ¬ (labelNames dupInput.labels).Nodup ∧
    solve dupInput = SolveResult.failure ErrorKind.ConflictingLabel conflictingLabelMsg :=
  ⟨by decide, c6_duplicate_labels_rejected dupInput (by decide)⟩

/-- Depth contribution of a cons cell. -/
theorem depthOf_cons (c : Char) (l : List Char) :
    depthOf (c :: l) = parenDelta c + depthOf l := by
  simp [depthOf]

/-- Characterization of the running-depth scan: starting from a
non-negative depth `d`, the scan succeeds exactly when no prefix
drives the depth below zero and the total depth returns to zero. -/
theorem balScan_eq_true_iff (l : List Char) : ∀ d : Int, 0 ≤ d →
    (balScan l d = true ↔ ((∀ n, 0 ≤ d + depthOf (l.take n)) ∧ d + depthOf l = 0)) := by
  induction l with
  | nil =>
    intro d _
    constructor
    · intro h
      have hd : d = 0 := by simpa [balScan] using h
      subst hd
      exact ⟨fun n => by simp [depthOf], by simp [depthOf]⟩
    · rintro ⟨-, h2⟩
      have hd : d = 0 := by simpa [depthOf] using h2
      simp [balScan, hd]
  | cons c cs ih =>
    intro d hd
    by_cases hneg : d + parenDelta c < 0
    · have hscan : balScan (c :: cs) d = false := by simp [balScan, hneg]
      rw [hscan]
      constructor
      · intro h
        cases h
      · rintro ⟨h1, -⟩
        exfalso
        have h1' := h1 1
        rw [List.take_succ_cons, List.take_zero, depthOf_cons] at h1'
        simp [depthOf] at h1'
        omega
    · have h0 : 0 ≤ d + parenDelta c := by omega
      have hscan : balScan (c :: cs) d = balScan cs (d + parenDelta c) := by
        simp [balScan, hneg]
      rw [hscan, ih (d + parenDelta c) h0]
      constructor
      · rintro ⟨h1, h2⟩
        refine ⟨fun n => ?_, ?_⟩
        · cases n with
          | zero => simpa [depthOf] using hd
          | succ m =>
            have hm := h1 m
            rw [List.take_succ_cons, depthOf_cons]
            omega
        · rw [depthOf_cons]
          omega
      · rintro ⟨h1, h2⟩
        refine ⟨fun n => ?_, ?_⟩
        · have hm := h1 (n + 1)
          rw [List.take_succ_cons, depthOf_cons] at hm
          omega
        · rw [depthOf_cons] at h2
          omega

/-- An unbalanced string fails the running-depth scan. -/
theorem balScan_false_of_unbalanced (s : String) (h : Unbalanced s) :
    balScan s.data 0 = false := by
  cases hb : balScan s.data 0
  · rfl
  · exfalso
    have hc := (balScan_eq_true_iff s.data 0 le_rfl).mp hb
    rcases h with ⟨n, hn⟩ | hne
    · have := hc.1 n
      omega
    · have := hc.2
      omega

/-- A list without parenthesis characters has zero total depth. -/
theorem depthOf_eq_zero_of_no_paren (l : List Char)
    (h : ∀ c ∈ l, parenDelta c = 0) : depthOf l = 0 := by
  induction l with
  | nil => rfl
  | cons c cs ih =>
    rw [depthOf_cons, h c (List.mem_cons_self c cs),
      ih (fun x hx => h x (List.mem_cons_of_mem c hx))]
    simp

/-- An unbalanced string contains a parenthesis character. -/
theorem exists_paren_of_unbalanced (s : String) (h : Unbalanced s) :
    ∃ c ∈ s.data, c = '(' ∨ c = ')' := by
  by_contra hno
  push_neg at hno
  have hz : ∀ c ∈ s.data, parenDelta c = 0 := by
    intro c hc
    have hcc := hno c hc
    simp [parenDelta, hcc.1, hcc.2]
  rcases h with ⟨n, hn⟩ | hne
  · have hzn : depthOf (s.data.take n) = 0 :=
      depthOf_eq_zero_of_no_paren _ (fun c hc => hz c (List.take_subset n s.data hc))
    omega
  · exact hne (depthOf_eq_zero_of_no_paren _ hz)

/-- C7 (amended): for every expression string over the allowed
character whitelist whose parentheses are unbalanced (the running
depth counter goes negative on some prefix or does not return to
zero at the end), `validate` returns
`Err(UnbalancedParentheses)`.  The whitelist hypothesis is forced by
the check order of §4.4, under which the character-whitelist check
runs first (see the counterexample). -/
theorem c7_unbalanced_whitelisted (s : String)
    (hw : s.data.all allowedChar = true) (hu : Unbalanced s) :
    validate s = Except.error ErrorKind.UnbalancedParentheses := by
  obtain ⟨c, hc, hpar⟩ := exists_paren_of_unbalanced s hu
  have hns : s.data.all Char.isWhitespace = false := by
    cases hall : s.data.all Char.isWhitespace
    · rfl
    · exfalso
      have hcw := List.all_eq_true.mp hall c hc
      rcases hpar with h | h <;> subst h <;> exact absurd hcw (by decide)
  have hb : balScan s.data 0 = false := balScan_false_of_unbalanced s hu
  simp [validate, hns, hw, hb]

/-- Counterexample to C7 as stated: the string `(#` is unbalanced
(total depth 1), yet `validate` returns `Err(InvalidCharacter)`, not
`Err(UnbalancedParentheses)`, because the whitelist check of §4.4
runs before the balance check. -/
theorem c7_invalid_char_wins :
    Unbalanced invalidCharExpr ∧
    validate invalidCharExpr = Except.error ErrorKind.InvalidCharacter ∧
    (Except.error ErrorKind.InvalidCharacter : Except ErrorKind Unit) ≠
      Except.error ErrorKind.UnbalancedParentheses :=
  ⟨Or.inr (by decide), rfl, by simp⟩

/-- Witness for C7 (amended) at the spec's own example `(2+3`. -/
theorem c7_unbalanced_whitelisted_witness :
    unbalExpr.data.all allowedChar = true ∧ Unbalanced unbalExpr ∧
    validate unbalExpr = Except.error ErrorKind.UnbalancedParentheses :=
  ⟨by decide, Or.inr (by decide),
    c7_unbalanced_whitelisted unbalExpr (by decide) (Or.inr (by decide))⟩

/-- C8 (amended): for every `CalcRequest` whose shape is in the
catalog, whose calculation kind the shape supports, and which
supplies every required parameter, if some required
(length/radius) parameter value is not strictly positive then
`calculate` returns `Err(InvalidParameter)` — and no formula
executes: the statement holds for an arbitrary formula table `F`, so
the result does not depend on any formula.  The extra well-formedness
hypotheses are forced by the validation order of §4.6, under which
the shape and calculation-kind checks run first (see the
counterexample). -/
theorem c8_nonpositive_param_invalid (F : FormulaTable) (req : CalcRequest)
    (sp : ShapeSpec) (n : String) (v : Rat)
    (hsp : catalog.find? (fun s => s.name = req.shape) = some sp)
    (hct : req.calcType ∈ sp.calcTypes)
    (hall : ∀ m ∈ sp.requiredParams, (lookupParam req.params m).isSome)
    (hn : n ∈ sp.requiredParams)
    (hv : lookupParam req.params n = some v)
    (hnp : v ≤ 0) :
    ∃ m, calcWith F req = Except.error (GeoError.InvalidParameter m positiveReason) := by
  have hmiss : sp.requiredParams.find? (fun m => (lookupParam req.params m).isNone) = none := by
    rw [List.find?_eq_none]
    intro x hx
    have hs := hall x hx
    cases hlk : lookupParam req.params x with
    | none => rw [hlk] at hs; simp at hs
    | some w => simp
  have hfind : (sp.requiredParams.find?
      (fun m => match lookupParam req.params m with
        | some w => decide (w ≤ 0)
        | none => false)).isSome := by
    rw [List.find?_isSome]
    refine ⟨n, hn, ?_⟩
    rw [hv]
    simpa using hnp
  obtain ⟨m, hm⟩ := Option.isSome_iff_exists.mp hfind
  refine ⟨m, ?_⟩
  simp [calcWith, hsp, hct, hmiss, hm]

/-- Counterexample to C8 as stated: the request (Rectangle, surface
area, `l = -1`, `w = 3`) carries a non-positive length parameter, yet
`calculate` returns `Err(UnsupportedCalculation)`, not
`Err(InvalidParameter)`, because the calculation-kind check of §4.6
runs before the positivity check. -/
theorem c8_unsupported_calc_wins :
    lookupParam rectSurfaceReq.params lParam = some (-1) ∧
    calculate rectSurfaceReq = Except.error GeoError.UnsupportedCalculation ∧
    isInvalidParameter (calculate rectSurfaceReq) = false :=
  ⟨rfl, rfl, rfl⟩

/-- Witness for C8 (amended) at the spec's own example: circle area
with radius -1 yields `Err(InvalidParameter)`. -/
theorem c8_nonpositive_param_invalid_witness :
    lookupParam circleNegReq.params rParam = some (-1) ∧
    ∃ m, calculate circleNegReq = Except.error (GeoError.InvalidParameter m positiveReason) :=
  ⟨rfl, c8_nonpositive_param_invalid defaultFormulas circleNegReq
    ⟨circleName, [rParam], [CalcType.area, CalcType.perimeter, CalcType.volume, CalcType.surfaceArea]⟩
    rParam (-1) rfl (by decide) (by decide) (by decide) rfl (by decide)⟩

/-- Exhaustive shape of a handler run: a 400 validation response with
an empty trace, a 500 response thrown before `sharp` (null
dereference or undefined buffer), a 500 response after `sharp` threw,
a 500 response after Gemini threw (with the Gemini call carrying the
hard-coded JPEG MIME type), or a 200 success response (likewise). -/
theorem handler_cases (env : Env) (body : Body) :
    (∃ d, handler env body = (validationFailedResponse d, [])) ∨
    (∃ m, handler env body = (internalErrorResponse m, [])) ∨
    (∃ m b, handler env body = (internalErrorResponse m, [ExtCall.sharp b])) ∨
    (∃ m b p pr, handler env body =
      (internalErrorResponse m,
        [ExtCall.sharp b, ExtCall.gemini pr (fileToGenerativePart p jpegMime)])) ∨
    (∃ a b p pr, handler env body =
      (successResponse a,
        [ExtCall.sharp b, ExtCall.gemini pr (fileToGenerativePart p jpegMime)])) := by
  cases hv : env.schemaValidate body with
  | invalid d => exact Or.inl ⟨d, by simp [handler, routeTry, hv]⟩
  | valid v =>
    cases hm : dataUrlCapture v.image with
    | none =>
      exact Or.inr (Or.inl ⟨nullDerefMsg, by simp [handler, routeTry, hv, hm]⟩)
    | some mt =>
      cases hb : bufferFromBase64 (splitSecond v.image) with
      | error e =>
        exact Or.inr (Or.inl ⟨e.message, by simp [handler, routeTry, hv, hm, hb]⟩)
      | ok buf =>
        cases hs : env.sharpResize buf with
        | error e =>
          exact Or.inr (Or.inr (Or.inl
            ⟨e.message, buf, by simp [handler, routeTry, hv, hm, hb, hs]⟩))
        | ok processed =>
          cases hg : env.generateContent (promptFor v.dictOfVars)
              (fileToGenerativePart processed jpegMime) with
          | error e =>
            exact Or.inr (Or.inr (Or.inr (Or.inl
              ⟨e.message, buf, processed, promptFor v.dictOfVars,
                by simp [handler, routeTry, analyzeImage, hv, hm, hb, hs, hg]⟩)))
          | ok rt =>
            cases hj : env.jsonParse (cleanResponse rt) with
            | some answers =>
              exact Or.inr (Or.inr (Or.inr (Or.inr
                ⟨answers, buf, processed, promptFor v.dictOfVars,
                  by simp [handler, routeTry, analyzeImage, hv, hm, hb, hs, hg, hj]⟩)))
            | none =>
              exact Or.inr (Or.inr (Or.inr (Or.inr
                ⟨JsVal.jarr [], buf, processed, promptFor v.dictOfVars,
                  by simp [handler, routeTry, analyzeImage, hv, hm, hb, hs, hg, hj]⟩)))

/-- C3: for every request and environment, any error thrown during
processing or by the backend call (any `.error` outcome of the `try`
block) is caught at the handler boundary and mapped to the 500
failure response carrying the error's message — and every handler
run whatsoever ends in a complete response with status code 200, 400
or 500, so no error escapes as an uncaught fault. -/
theorem c3_errors_mapped_to_failure (env : Env) (body : Body) :
    (∀ e calls, routeTry env body = (Except.error e, calls) →
      handler env body = (internalErrorResponse e.message, calls) ∧
      (handler env body).1.status = some failureTag ∧
      (handler env body).1.statusCode = 500) ∧
    ((handler env body).1.statusCode = 200 ∨ (handler env body).1.statusCode = 400 ∨
      (handler env body).1.statusCode = 500) := by
  constructor
  · intro e calls h
    have hh : handler env body = (internalErrorResponse e.message, calls) := by
      simp [handler, h]
    exact ⟨hh, by simp [hh, internalErrorResponse], by simp [hh, internalErrorResponse]⟩
  · rcases handler_cases env body with ⟨d, hh⟩ | ⟨m, hh⟩ | ⟨m, b, hh⟩ |
      ⟨m, b, pb, pr, hh⟩ | ⟨a, b, pb, pr, hh⟩ <;>
      simp [hh, validationFailedResponse, internalErrorResponse, successResponse]

/-- Witness for C3 at a concrete environment whose `sharp` call
throws: the thrown error surfaces as the 500 failure response. -/
theorem c3_errors_mapped_to_failure_witness :
    routeTry envSharpThrow rawBody = (Except.error ⟨sharpErrMsg⟩, [ExtCall.sharp payloadB64]) ∧
    handler envSharpThrow rawBody = (internalErrorResponse sharpErrMsg, [ExtCall.sharp payloadB64]) :=
  ⟨rfl, ((c3_errors_mapped_to_failure envSharpThrow rawBody).1 ⟨sharpErrMsg⟩
    [ExtCall.sharp payloadB64] rfl).1⟩

/-- C9: for every request and environment, every Gemini call in the
handler's trace carries the constant MIME type `image/jpeg`:
`analyzeImage` hard-codes it, and the MIME type the handler extracts
from the request's data URL is never passed to `analyzeImage`,
whatever the uploaded image's declared type. -/
theorem c9_mime_always_jpeg (env : Env) (body : Body) (p : String) (part : GenPart)
    (h : ExtCall.gemini p part ∈ (handler env body).2) :
    part.mimeType = jpegMime := by
  rcases handler_cases env body with ⟨d, hh⟩ | ⟨m, hh⟩ | ⟨m, b, hh⟩ |
    ⟨m, b, pb, pr, hh⟩ | ⟨a, b, pb, pr, hh⟩
  · rw [hh] at h; simp at h
  · rw [hh] at h; simp at h
  · rw [hh] at h; simp at h
  · rw [hh] at h
    simp [fileToGenerativePart] at h
    rw [h.2]
  · rw [hh] at h
    simp [fileToGenerativePart] at h
    rw [h.2]

/-- Witness for C9 at a concrete run whose trace contains a Gemini
call. -/
theorem c9_mime_always_jpeg_witness :
    ExtCall.gemini (promptFor sampleDict) (fileToGenerativePart payloadB64 jpegMime) ∈
      (handler envParseFail rawBody).2 ∧
    (fileToGenerativePart payloadB64 jpegMime).mimeType = jpegMime :=
  ⟨by decide, c9_mime_always_jpeg envParseFail rawBody (promptFor sampleDict)
    (fileToGenerativePart payloadB64 jpegMime) (by decide)⟩

/-- C1 (evaluation at the failing input): in an environment where the
schema accepts, `sharp` and Gemini succeed, but the Gemini response
text cannot be parsed by `JSON.parse` (it cannot be normalized into a
result), the handler still completes with the HTTP 200 response,
`status: "success"`, and an empty `data` list: `analyzeImage`
swallows the parse failure (its catch leaves `answers = []`) and the
route reports the request as processed successfully, so an ambiguous
partial success is reported, contrary to the specification. -/
theorem c1_parse_failure_reports_success :
    envParseFail.jsonParse (cleanResponse geminiText) = none ∧
    handler envParseFail rawBody =
      (successResponse (JsVal.jarr []),
        [ExtCall.sharp payloadB64,
          ExtCall.gemini (promptFor sampleDict) (fileToGenerativePart payloadB64 jpegMime)]) ∧
    (handler envParseFail rawBody).1.status = some successTag ∧
    (handler envParseFail rawBody).1.statusCode = 200 :=
  ⟨rfl, rfl, rfl, rfl⟩

/-- Counterexample to C4 as stated: a successful run's `status` field
is `"success"`, which is neither `"ok"` nor `"error"`, and the 400
validation response carries no `status` field and no `errorKind`
field at all (its only fields are `message` and `errors`). -/
theorem c4_status_not_ok_error :
    (handler envParseFail rawBody).1.status = some successTag ∧
    successTag ≠ okTag ∧ successTag ≠ errorTag ∧
    (handler envInvalid rawBody).1.status = none :=
  ⟨rfl, by decide, by decide, rfl⟩

/-- C4 (amended): every response of the pipeline is one of exactly
three complete shapes — 200 with `status: "success"`, 400 with no
`status` field, the fixed validation-failure message and Joi error
details, or 500 with `status: "failure"`, the fixed
internal-server-error message and the thrown error's message; no
response carries a `status` of `"ok"` or `"error"`, and no stable
`errorKind` field exists (failures carry human-readable messages and
error details instead). -/
theorem c4_status_success_or_failure (env : Env) (body : Body) :
    ((handler env body).1.statusCode = 200 ∧ (handler env body).1.status = some successTag) ∨
    ((handler env body).1.statusCode = 400 ∧ (handler env body).1.status = none ∧
      (handler env body).1.message = validationFailedMsg ∧ (handler env body).1.errors ≠ none) ∨
    ((handler env body).1.statusCode = 500 ∧ (handler env body).1.status = some failureTag ∧
      (handler env body).1.message = internalErrorMsg ∧ (handler env body).1.error ≠ none) := by
  rcases handler_cases env body with ⟨d, hh⟩ | ⟨m, hh⟩ | ⟨m, b, hh⟩ |
    ⟨m, b, pb, pr, hh⟩ | ⟨a, b, pb, pr, hh⟩
  · exact Or.inr (Or.inl (by simp [hh, validationFailedResponse]))
  · exact Or.inr (Or.inr (by simp [hh, internalErrorResponse]))
  · exact Or.inr (Or.inr (by simp [hh, internalErrorResponse]))
  · exact Or.inr (Or.inr (by simp [hh, internalErrorResponse]))
  · exact Or.inl (by simp [hh, successResponse])
